import Mathlib

/-!
Verification of the web auto-reply connection/delivery engine
(`src/web/auto-reply.ts`) of the openclaw repository.

The embedding below translates the relevant parts of
`src/web/auto-reply.ts` into Lean definitions.  JavaScript `Set`s are
modelled as insertion-ordered duplicate-free `List String`s, mutable
per-conversation maps as association lists, and the asynchronous monitor
loop as a function over a script of connection-close events.  Helpers the
file imports from modules that are not part of the provided sources
(`chunk.js`, `tokens.js`, `utils.js`, `group-activation.js`,
`heartbeat.js`) are modelled from the specification and carry a
`Modelled from the spec:` note in their doc comment.
-/

namespace OpenClaw

/-! ### Generic character-list helpers (UTF-16-agnostic string model) -/

/-- `charsPrefixOf n h` is true when the char list `n` is a prefix of `h`. -/
def charsPrefixOf : List Char → List Char → Bool
  | [], _ => true
  | _ :: _, [] => false
  | a :: as, b :: bs => a == b && charsPrefixOf as bs

/-- `charsContains needle hay` is true when `needle` occurs contiguously in
`hay` (JavaScript `String.prototype.includes`). -/
def charsContains (needle : List Char) : List Char → Bool
  | [] => needle.isEmpty
  | c :: t => charsPrefixOf needle (c :: t) || charsContains needle t

/-- String containment test: `strContainsB hay needle`. -/
def strContainsB (hay needle : String) : Bool :=
  charsContains needle.toList hay.toList

/-- `strStartsWith s p`: `s` starts with `p` (JS `startsWith`). -/
def strStartsWith (s p : String) : Bool :=
  charsPrefixOf p.toList s.toList

/-- Drop leading and trailing whitespace (JS `String.prototype.trim`). -/
def trimChars (s : List Char) : List Char :=
  ((s.dropWhile Char.isWhitespace).reverse.dropWhile Char.isWhitespace).reverse

/-- String trim. -/
def strTrim (s : String) : String := String.mk (trimChars s.toList)

/-- ASCII lower-casing (models JS `toLowerCase` on the inputs we care about). -/
def strToLower (s : String) : String := String.mk (s.toList.map Char.toLower)

/-- Collapse every whitespace run to a single space (JS `replace(/\s+/g, " ")`),
one character of lookbehind carried in `prevWs`. -/
def squeezeWsGo : Bool → List Char → List Char
  | _, [] => []
  | prevWs, c :: rest =>
    if c.isWhitespace then
      (if prevWs then [] else [' ']) ++ squeezeWsGo true rest
    else c :: squeezeWsGo false rest

/-- JS `text.replace(/\s+/g, " ").trim()`. -/
def collapseWs (s : String) : String :=
  String.mk (trimChars (squeezeWsGo false s.toList))

/-- Left-to-right global replacement of the contiguous pattern `needle` by
`rep` (JS `replace(pat, rep)` with a global literal pattern).  The fuel is
a step bound; `fuel = s.length` always suffices because every step consumes
at least one input character. -/
def replaceSubGo (needle rep : List Char) : Nat → List Char → List Char
  | 0, s => s
  | _, [] => []
  | fuel + 1, c :: rest =>
    if needle ≠ [] && charsPrefixOf needle (c :: rest) then
      rep ++ replaceSubGo needle rep fuel ((c :: rest).drop needle.length)
    else c :: replaceSubGo needle rep fuel rest

/-- Global replacement of all occurrences of `needle` by `rep` in `s`. -/
def replaceSubAll (needle rep s : List Char) : List Char :=
  replaceSubGo needle rep s.length s

/-- Left-to-right global replacement of the pattern `\+?<digits>` by a single
space (the self-number stripping regex in `stripMentionsForCommand`,
`src/web/auto-reply.ts:877`). -/
def replaceDigitPatGo (digits : List Char) : Nat → List Char → List Char
  | 0, s => s
  | _, [] => []
  | fuel + 1, c :: rest =>
    if digits ≠ [] && c == '+' && charsPrefixOf digits rest then
      ' ' :: replaceDigitPatGo digits fuel (rest.drop digits.length)
    else if digits ≠ [] && charsPrefixOf digits (c :: rest) then
      ' ' :: replaceDigitPatGo digits fuel ((c :: rest).drop digits.length)
    else c :: replaceDigitPatGo digits fuel rest

/-- Replace every `\+?<digits>` occurrence in `s` by a space. -/
def replaceDigitPat (digits s : List Char) : List Char :=
  replaceDigitPatGo digits s.length s

/-! ### Constants of `src/web/auto-reply.ts` -/

/-- `src/web/auto-reply.ts:44`. -/
def WEB_TEXT_LIMIT : Nat := 4000

/-- `src/web/auto-reply.ts:45`. -/
def DEFAULT_GROUP_HISTORY_LIMIT : Nat := 50

/-- `src/web/auto-reply.ts:901`. -/
def MAX_RECENT_MESSAGES : Nat := 100

/-- `src/web/auto-reply.ts:916`: 30 minutes without any message. -/
def MESSAGE_TIMEOUT_MS : Nat := 30 * 60 * 1000

/-- `src/web/auto-reply.ts:917`: watchdog check period. -/
def WATCHDOG_CHECK_MS : Nat := 60 * 1000

/-- Modelled from the spec: the silent-reply token from
`src/auto-reply/tokens.js` (file not among the provided sources).  The spec
says it is a non-empty surface-agnostic string constant matched exactly
after trimming; its exact spelling does not matter for the theorems below. -/
def SILENT_REPLY_TOKEN : String := "SILENT_REPLY"

/-- The heartbeat acknowledgment token; the repository's tests name its
value explicitly ("does not deliver HEARTBEAT_OK responses"). -/
def HEARTBEAT_TOKEN : String := "HEARTBEAT_OK"

/-! ### Echo guard (`recentlySent`, `src/web/auto-reply.ts:899-901`)

A JavaScript `Set<string>` is modelled as an insertion-ordered list without
duplicates: the head is the oldest entry (`values().next().value`). -/

/-- `Set.add`: appends when absent, otherwise leaves the set unchanged
(JS sets keep the original insertion position). -/
def echoAdd (s : List String) (x : String) : List String :=
  if x ∈ s then s else s ++ [x]

/-- The eviction step `if (recentlySent.size > MAX_RECENT_MESSAGES) delete
first key` (`src/web/auto-reply.ts:1207-1210`). -/
def evictIfOver (s : List String) : List String :=
  if MAX_RECENT_MESSAGES < s.length then s.tail else s

/-- The tool-result bookkeeping `recentlySent.add(text)` followed by a single
eviction check (`src/web/auto-reply.ts:1100-1104`). -/
def recordSentTool (s : List String) (text : String) : List String :=
  evictIfOver (echoAdd s text)

/-- The main-reply bookkeeping: `recentlySent.add(replyPayload.text);
recentlySent.add(combinedBody)` followed by a single eviction check
(`src/web/auto-reply.ts:1201-1210`). -/
def recordSentMain (s : List String) (text combined : String) : List String :=
  evictIfOver (echoAdd (echoAdd s text) combined)

/-- The echo membership test with consume-on-hit used on the raw inbound
body (`src/web/auto-reply.ts:1259-1267`) and on the composed body
(`src/web/auto-reply.ts:992-996`): returns whether the message is
suppressed together with the updated set. -/
def checkEcho (s : List String) (body : String) : Bool × List String :=
  if body ∈ s then (true, s.erase body) else (false, s)

/-- A 100-entry echo set (distinct bodies), used to exhibit the capacity
overflow of `recordSentMain`. -/
def echoFullState : List String :=
  (List.range 100).map (fun i => "m" ++ toString i)

/-! ### Group history buffer (`src/web/auto-reply.ts:1286-1301`) -/

/-- One entry of the per-conversation group history
(`{sender, body, timestamp}`). -/
structure GroupHistoryEntry where
  sender : String
  body : String
  timestamp : Option Nat
deriving DecidableEq, Repr

/-- The loop `while (history.length > limit) history.shift()`
(`src/web/auto-reply.ts:1299`). -/
def shiftWhileOver (limit : Nat) : List GroupHistoryEntry → List GroupHistoryEntry
  | [] => []
  | x :: xs =>
    if limit < (x :: xs).length then shiftWhileOver limit xs else x :: xs

/-- `history.push(entry)` followed by the bounding loop
(`src/web/auto-reply.ts:1294-1299`). -/
def appendGroupHistory (limit : Nat) (h : List GroupHistoryEntry)
    (e : GroupHistoryEntry) : List GroupHistoryEntry :=
  shiftWhileOver limit (h ++ [e])

/-- `groupHistories.get(conversationId) ?? []`. -/
def getHist (conv : String) (hs : List (String × List GroupHistoryEntry)) :
    List GroupHistoryEntry :=
  match hs.find? (fun kv => kv.1 = conv) with
  | some kv => kv.2
  | none => []

/-- `groupHistories.set(conversationId, v)`. -/
def setHist (conv : String) (v : List GroupHistoryEntry)
    (hs : List (String × List GroupHistoryEntry)) :
    List (String × List GroupHistoryEntry) :=
  if hs.any (fun kv => kv.1 = conv) then
    hs.map (fun kv => if kv.1 = conv then (kv.1, v) else kv)
  else hs ++ [(conv, v)]

/-! ### Connection supervisor loop (`src/web/auto-reply.ts:903-1542`)

The monitor loop is modelled as a function over a script of connection
closes.  Each list element describes one established connection: the
disconnect reason its `onClose` eventually resolves with, and whether the
connection was up for longer than one heartbeat interval before closing
(`uptimeMs > heartbeatSeconds * 1000`, `src/web/auto-reply.ts:1441-1444`,
which resets the attempt counter).  An empty script means the current
connection's `onClose` never resolves.  The model covers the
`keepAlive = true` path with no abort signal and no SIGINT; inbound
message handling is modelled separately (`processMessage` below). -/

/-- The disconnect reason carried by `onClose`
(status code and `isLoggedOut`, `src/web/auto-reply.ts:1453-1461`). -/
structure CloseReason where
  status : Option Nat
  isLoggedOut : Bool
deriving DecidableEq, Repr

/-- One completed connection: its close reason and whether its uptime
exceeded one heartbeat interval. -/
structure ConnectionRun where
  reason : CloseReason
  uptimeHealthy : Bool
deriving DecidableEq, Repr

/-- Immutable reconnect configuration (`ReconnectPolicy` from
`src/web/reconnect.js`, fields per the spec: `initialMs`, `maxMs`,
`factor`, `maxAttempts` with `0` meaning unlimited).  The backoff factor
only shapes the sleep duration, which no claim observes, so it is kept as
a plain numerator/denominator-free natural scale and unused below. -/
structure ReconnectPolicy where
  initialMs : Nat
  maxMs : Nat
  maxAttempts : Nat
deriving DecidableEq, Repr

/-- How a monitor run ends: `stopped` means the `while` loop was exited
(logout or max attempts); `waitingOnClose` means the loop is parked in the
`Promise.race` waiting for an `onClose` that never resolves. -/
inductive MonitorOutcome
  | stopped
  | waitingOnClose
deriving DecidableEq, Repr

/-- The supervisor loop of `monitorWebProvider`: returns how many times the
listener factory was invoked (`src/web/auto-reply.ts:1242`) and how the run
ends.  Per iteration it mirrors, in source order: the healthy-uptime
attempt reset (`:1441-1444`), the logout break (`:1491-1497`), the attempt
increment (`:1499`) and the max-attempts break (`:1502-1520`); otherwise it
sleeps and loops. -/
def monitorLoop (policy : ReconnectPolicy) (attempts : Nat) :
    List ConnectionRun → Nat × MonitorOutcome
  | [] => (1, .waitingOnClose)
  | r :: rest =>
    let attemptsReset := if r.uptimeHealthy then 0 else attempts
    if r.reason.isLoggedOut then (1, .stopped)
    else
      let attemptsNext := attemptsReset + 1
      if 0 < policy.maxAttempts ∧ policy.maxAttempts ≤ attemptsNext then
        (1, .stopped)
      else
        let next := monitorLoop policy attemptsNext rest
        (next.1 + 1, next.2)

/-- A connection whose `onClose` resolves immediately with a non-terminal
reason (uptime ~0, so the healthy-stretch reset does not trigger). -/
def immediateClose : ConnectionRun :=
  { reason := { status := some 428, isLoggedOut := false }, uptimeHealthy := false }

/-- A reconnect policy with the given `maxAttempts`. -/
def policyWithMax (n : Nat) : ReconnectPolicy :=
  { initialMs := 5, maxMs := 5, maxAttempts := n }

/-! ### Watchdog (`src/web/auto-reply.ts:1387-1417`) -/

/-- One watchdog tick: fires (force-closes the connection) only when
`lastMessageAt` is set and more than `MESSAGE_TIMEOUT_MS` has elapsed since
it (`if (lastMessageAt) { if (Date.now() - lastMessageAt >
MESSAGE_TIMEOUT_MS) ... }`, `src/web/auto-reply.ts:1389-1391`).
`lastMessageAt` starts as `null` on every connection
(`src/web/auto-reply.ts:910`) and is set on each inbound message. -/
def watchdogShouldForceClose (lastMessageAt : Option Nat) (now : Nat) : Bool :=
  match lastMessageAt with
  | none => false
  | some t => decide (MESSAGE_TIMEOUT_MS < now - t)

/-- The close reason the watchdog injects via `listener.signalClose`
(`src/web/auto-reply.ts:1410-1414`). -/
def watchdogCloseReason : CloseReason :=
  { status := some 499, isLoggedOut := false }

/-- The claim's firing condition, taken literally: no inbound message for
longer than the hard timeout, where "time since the last inbound message"
falls back to the connection start when no message ever arrived. -/
def noInboundLongerThan (startedAt : Nat) (lastMessageAt : Option Nat)
    (now : Nat) : Prop :=
  MESSAGE_TIMEOUT_MS < now - lastMessageAt.getD startedAt

instance (s : Nat) (l : Option Nat) (n : Nat) :
    Decidable (noInboundLongerThan s l n) := by
  unfold noInboundLongerThan; infer_instance

/-! ### Mention detection (`src/web/auto-reply.ts:102-181`)

The configured mention patterns are JavaScript regular expressions; they
enter this file only through two operations — testing the cleaned body
(`re.test(bodyClean)`, `src/web/auto-reply.ts:148`) and replacing their
matches by a space (`result.replace(re, " ")`,
`src/web/auto-reply.ts:872`) — so they are modelled as an opaque test
function and an opaque replacement function. -/

/-- The `MentionConfig` of `src/web/auto-reply.ts:102-120`:
`mentionTest` abstracts `mentionRegexes.some((re) => re.test(s))`,
`mentionStrip` abstracts the fold of `result.replace(re, " ")` over the
configured regexes, and `allowFrom` is `cfg.whatsapp?.allowFrom`. -/
structure MentionEnv where
  mentionTest : String → Bool
  mentionStrip : String → String
  allowFrom : List String

/-- The inbound message shape consumed by the monitor (the fields of
`WebInboundMsg` the gating logic reads; `from`/`to` are renamed `fromAddr`
and `toAddr` because `from` is a Lean keyword).  Optional platform fields
are `Option`s; an absent `mentionedJids` is the empty list (the source only
ever asks for `.length`). -/
structure WebInboundMsg where
  id : Option String := none
  body : String := ""
  fromAddr : String := ""
  toAddr : String := ""
  chatType : String := "direct"
  conversationId : Option String := none
  senderE164 : Option String := none
  senderName : Option String := none
  selfE164 : Option String := none
  selfJid : Option String := none
  mentionedJids : List String := []
  timestamp : Option Nat := none
deriving DecidableEq, Repr

/-- The zero-width / directionality characters stripped before matching:
the ranges U+200B-U+200F, U+202A-U+202E and U+2060-U+206F
(`src/web/auto-reply.ts:129`). -/
def isInvisibleMark (c : Char) : Bool :=
  (0x200b ≤ c.toNat && c.toNat ≤ 0x200f) ||
  (0x202a ≤ c.toNat && c.toNat ≤ 0x202e) ||
  (0x2060 ≤ c.toNat && c.toNat ≤ 0x206f)

/-- The `clean` helper of `isBotMentioned`: strip invisible markers, then
lower-case (`src/web/auto-reply.ts:126-130`). -/
def cleanBody (text : String) : String :=
  String.mk ((text.toList.filter (fun c => !isInvisibleMark c)).map Char.toLower)

/-- Modelled from the spec: `normalizeE164` from `src/utils.js` (file not
among the provided sources).  Normalizes a phone-number-like string to a
canonical `+<digits>` form, returning the empty string when no digits are
present. -/
def normalizeE164 (s : String) : String :=
  let d := s.toList.filter Char.isDigit
  if d = [] then "" else String.mk ('+' :: d)

/-- Modelled from the spec: `jidToE164` from `src/utils.js` (not among the
provided sources).  Converts a WhatsApp JID such as `999@s.whatsapp.net`
to `+999`; returns `none` for non-JID input. -/
def jidToE164 (s : String) : Option String :=
  if s.toList.contains '@' then
    let d := (s.toList.takeWhile (fun c => c ≠ '@')).filter Char.isDigit
    if d = [] then none else some (String.mk ('+' :: d))
  else none

/-- Modelled from the spec: `isSelfChatMode` from `src/utils.js` (not among
the provided sources).  Self-chat mode holds when the bot's own number is
itself a configured allowed sender, i.e. sender identity and self identity
normalize to the same address (the repository's test sets it up as
"allowFrom includes selfE164"); the `"*"` wildcard does not count. -/
def isSelfChatMode (selfE164 : Option String) (allowFrom : List String) : Bool :=
  match selfE164 with
  | none => false
  | some se =>
    se ≠ "" &&
      allowFrom.any (fun a => a ≠ "*" && normalizeE164 a = normalizeE164 se)

/-- First-occurrence removal of the literal pattern written as `/:\\d+/` in
the source (`src/web/auto-reply.ts:141`): a colon, a backslash, then one or
more `d` characters. -/
def stripColonBackslashD : List Char → List Char
  | [] => []
  | c :: rest =>
    if c = ':' then
      match rest with
      | '\\' :: 'd' :: tail => tail.dropWhile (fun x => x = 'd')
      | _ => c :: stripColonBackslashD rest
    else c :: stripColonBackslashD rest

/-- `mentionedJids.map((jid) => jidToE164(jid) ?? jid).filter(Boolean)`
(`src/web/auto-reply.ts:135-137`). -/
def normalizedMentionsOf (msg : WebInboundMsg) : List String :=
  (msg.mentionedJids.map (fun j => (jidToE164 j).getD j)).filter (fun s => s ≠ "")

/-- The platform-mention branch of `isBotMentioned`
(`src/web/auto-reply.ts:134-143`), evaluated only outside self-chat mode. -/
def jidMentionHit (msg : WebInboundMsg) : Bool :=
  let nm := normalizedMentionsOf msg
  (match msg.selfE164 with
   | some se => se ≠ "" && nm.contains se
   | none => false) ||
  (match msg.selfJid, msg.selfE164 with
   | some sj, some se =>
     sj ≠ "" && se ≠ "" && nm.contains (String.mk (stripColonBackslashD sj.toList))
   | _, _ => false)

/-- The digit-sequence fallback of `isBotMentioned`
(`src/web/auto-reply.ts:151-160`): the bot's own digits occur in the digits
of the cleaned body, or occur in the body with spaces and hyphens removed
(the regex `\+?<digits>` matches a string iff `<digits>` occurs in it). -/
def digitFallbackHit (msg : WebInboundMsg) : Bool :=
  match msg.selfE164 with
  | none => false
  | some se =>
    se ≠ "" &&
      (let selfDigits := se.toList.filter Char.isDigit
       selfDigits ≠ [] &&
         (let bodyDigits := (cleanBody msg.body).toList.filter Char.isDigit
          charsContains selfDigits bodyDigits ||
            (let bodyNoSpace :=
              msg.body.toList.filter (fun c => !(c.isWhitespace || c = '-'))
             charsContains selfDigits bodyNoSpace)))

/-- `isBotMentioned` (`src/web/auto-reply.ts:122-163`): the platform
`mentionedJids` branch is disabled entirely in self-chat mode
(`src/web/auto-reply.ts:134,144-146`); then the configured mention patterns
are tested against the cleaned body; then the digit fallback runs. -/
def isBotMentioned (env : MentionEnv) (msg : WebInboundMsg) : Bool :=
  let isSelfChat := isSelfChatMode msg.selfE164 env.allowFrom
  (if msg.mentionedJids ≠ [] && !isSelfChat then jidMentionHit msg else false) ||
    env.mentionTest (cleanBody msg.body) ||
    digitFallbackHit msg

/-! ### Group activation and command gating (`src/web/auto-reply.ts:815-882`,
`1270-1324`) -/

/-- First-match association-list lookup (JS object / `Map.get`). -/
def lookupKV {α : Type} (k : String) (l : List (String × α)) : Option α :=
  (l.find? (fun kv => kv.1 = k)).map Prod.snd

/-- Per-group config: the optional `requireMention` flag of
`cfg.whatsapp?.groups?.[id]`. -/
def GroupOverrides : Type := List (String × Option Bool)

/-- The session store as read by `resolveGroupActivationFor`: each key maps
to the entry's optional `groupActivation` string. -/
def SessionStoreView : Type := List (String × Option String)

/-- `resolveGroupRequireMentionFor` (`src/web/auto-reply.ts:815-823`):
per-conversation override, then the `"*"` wildcard, then `true`. -/
def resolveGroupRequireMentionFor (groups : GroupOverrides)
    (conversationId : String) : Bool :=
  match lookupKV conversationId groups with
  | some (some b) => b
  | _ =>
    match lookupKV "*" groups with
    | some (some b) => b
    | _ => true

/-- Modelled from the spec: `normalizeGroupActivation` from
`src/auto-reply/group-activation.js` (not among the provided sources).
Maps a stored raw value to one of the two activation modes
(`mention` / `always`), rejecting anything else. -/
def normalizeGroupActivation (s : Option String) : Option String :=
  match s with
  | some "always" => some "always"
  | some "mention" => some "mention"
  | _ => none

/-- `resolveGroupActivationFor` (`src/web/auto-reply.ts:825-836`): session
store lookup under `whatsapp:group:<id>` (or the id itself when already
`group:`-prefixed), with the default derived from `requireMention`. -/
def resolveGroupActivationFor (groups : GroupOverrides)
    (store : SessionStoreView) (conversationId : String) : String :=
  let key :=
    if strStartsWith conversationId "group:" then conversationId
    else "whatsapp:group:" ++ conversationId
  let entryActivation := (lookupKV key store).getD none
  let requireMention := resolveGroupRequireMentionFor groups conversationId
  let dflt := if requireMention = false then "always" else "mention"
  (normalizeGroupActivation entryActivation).getD dflt

/-- `resolveOwnerList` (`src/web/auto-reply.ts:838-850`): the configured
`allowFrom` list when non-empty, else the bot's own number; drop `"*"` and
empties, normalize, drop failed normalizations. -/
def resolveOwnerList (allowFrom : List String) (selfE164 : Option String) :
    List String :=
  let raw :=
    if allowFrom ≠ [] then allowFrom
    else
      match selfE164 with
      | some s => if s ≠ "" then [s] else []
      | none => []
  ((raw.filter (fun e => e ≠ "" && e ≠ "*")).map normalizeE164).filter
    (fun e => e ≠ "")

/-- `isOwnerSender` (`src/web/auto-reply.ts:852-857`). -/
def isOwnerSender (allowFrom : List String) (msg : WebInboundMsg) : Bool :=
  let sender := normalizeE164 (msg.senderE164.getD "")
  if sender = "" then false
  else (resolveOwnerList allowFrom msg.selfE164).contains sender

/-- `isStatusCommand` (`src/web/auto-reply.ts:859-867`). -/
def isStatusCommand (body : String) : Bool :=
  let trimmed := strToLower (strTrim body)
  if trimmed = "" then false
  else
    trimmed = "/status" || trimmed = "status" ||
      strStartsWith trimmed "/status "

/-- `stripMentionsForCommand` (`src/web/auto-reply.ts:869-882`): strip the
configured mention patterns, strip the bot's own number pattern
`\+?<digits>`, collapse whitespace, trim. -/
def stripMentionsForCommand (env : MentionEnv) (selfE164 : Option String)
    (text : String) : String :=
  let r1 := env.mentionStrip text
  let r2 :=
    match selfE164 with
    | some se =>
      if se ≠ "" then
        let digits := se.toList.filter Char.isDigit
        if digits ≠ [] then String.mk (replaceDigitPat digits r1.toList) else r1
      else r1
    | none => r1
  collapseWs r2

/-- Modelled from the spec: the `hasCommand` field of
`parseActivationCommand` from `src/auto-reply/group-activation.js` (not
among the provided sources).  An activation command is an owner-issued
`/activation ...` directive toggling the `always`/`mention` mode; only the
`hasCommand` flag is read by the monitor. -/
def parseActivationHasCommand (body : String) : Bool :=
  strStartsWith (strToLower (strTrim body)) "/activation"

/-- How the inbound handler disposes of a message before reply processing
(`onMessage`, `src/web/auto-reply.ts:1244-1325`). -/
inductive InboundDecision
  | echoSkipped
  | nonOwnerCommand
  | storedForContext
  | process
deriving DecidableEq, Repr

/-- Result of the inbound gate: the decision plus the updated echo set and
group histories. -/
structure GateResult where
  decision : InboundDecision
  recent : List String
  histories : List (String × List GroupHistoryEntry)
deriving Repr

/-- The configuration the gate reads. -/
structure GateConfig where
  env : MentionEnv
  groups : GroupOverrides
  store : SessionStoreView
  historyLimit : Nat

/-- The history entry pushed for a group message:
`{sender: msg.senderName ?? msg.senderE164 ?? "Unknown", body, timestamp}`
(`src/web/auto-reply.ts:1294-1298`). -/
def entryOfMsg (msg : WebInboundMsg) : GroupHistoryEntry :=
  { sender := (msg.senderName.or msg.senderE164).getD "Unknown"
    body := msg.body
    timestamp := msg.timestamp }

/-- The `onMessage` handler up to the call of `processMessage`
(`src/web/auto-reply.ts:1244-1324`): raw-body echo check with consume-on-hit
first; then, for group messages, activation-command parsing, the owner
bypass for activation/status commands, the silent drop of non-owner
activation commands, the history push for non-bypassing messages (bounded
by `historyLimit`), mention detection, activation lookup, and the
store-without-reply path when a required mention is absent.  The
member-name roster (`noteGroupMember`) only feeds the display string passed
to the resolver and is not modelled. -/
def onMessageGate (cfg : GateConfig) (recent : List String)
    (histories : List (String × List GroupHistoryEntry))
    (msg : WebInboundMsg) : GateResult :=
  let e := checkEcho recent msg.body
  if e.1 then
    { decision := .echoSkipped, recent := e.2, histories := histories }
  else if msg.chatType ≠ "group" then
    { decision := .process, recent := recent, histories := histories }
  else
    let conversationId := msg.conversationId.getD msg.fromAddr
    let commandBody := stripMentionsForCommand cfg.env msg.selfE164 msg.body
    let hasCommand := parseActivationHasCommand commandBody
    let isOwner := isOwnerSender cfg.env.allowFrom msg
    let statusCommand := isStatusCommand commandBody
    let shouldBypassMention := isOwner && (hasCommand || statusCommand)
    if hasCommand && !isOwner then
      { decision := .nonOwnerCommand, recent := recent, histories := histories }
    else
      let histories1 :=
        if shouldBypassMention then histories
        else
          setHist conversationId
            (appendGroupHistory cfg.historyLimit (getHist conversationId histories)
              (entryOfMsg msg))
            histories
      let wasMentioned := isBotMentioned cfg.env msg
      let activation := resolveGroupActivationFor cfg.groups cfg.store conversationId
      let requireMention := activation ≠ "always"
      if !shouldBypassMention && requireMention && !wasMentioned then
        { decision := .storedForContext, recent := recent, histories := histories1 }
      else
        { decision := .process, recent := recent, histories := histories1 }

/-! ### Reply payloads and the silent token
(`src/auto-reply/types.js`, `src/web/auto-reply.ts:185-191`) -/

/-- `ReplyPayload` (`src/auto-reply/types.js`, included among the provided
sources): `text?`, `mediaUrl?`, `mediaUrls?`, `replyToId?`. -/
structure ReplyPayload where
  text : Option String := none
  mediaUrl : Option String := none
  mediaUrls : Option (List String) := none
  replyToId : Option String := none
deriving DecidableEq, Repr

/-- JS truthiness of `payload.mediaUrl || payload.mediaUrls?.length`
(`src/web/auto-reply.ts:189` and the `hasMedia` computations). -/
def mediaAttachedB (p : ReplyPayload) : Bool :=
  (match p.mediaUrl with
   | some u => u ≠ ""
   | none => false) ||
  (match p.mediaUrls with
   | some l => l ≠ []
   | none => false)

/-- `isSilentReply` (`src/web/auto-reply.ts:185-191`): the trimmed text must
be exactly the silent token and no media may be attached. -/
def isSilentReply (p : Option ReplyPayload) : Bool :=
  match p with
  | none => false
  | some payload =>
    match payload.text with
    | none => false
    | some raw =>
      let t := strTrim raw
      if t = "" || t ≠ SILENT_REPLY_TOKEN then false
      else if mediaAttachedB payload then false
      else true

/-- The filter building `sendableReplies`
(`src/web/auto-reply.ts:1150-1152`). -/
def sendableFilter (l : List ReplyPayload) : List ReplyPayload :=
  l.filter (fun p => !isSilentReply (some p))

/-- JS truthiness of
`payload?.text || payload?.mediaUrl || payload?.mediaUrls?.length`
(`src/web/auto-reply.ts:1057-1061`). -/
def payloadHasContent (p : ReplyPayload) : Bool :=
  (match p.text with
   | some t => t ≠ ""
   | none => false) || mediaAttachedB p

/-- Modelled from the spec: `stripHeartbeatToken` from
`src/auto-reply/heartbeat.js` (not among the provided sources).  The spec
says the heartbeat-acknowledgment token is stripped and a token-only reply
is suppressed; the model removes every occurrence of the token, trims, and
flags a skip when nothing remains.  The `mode`/`maxAckChars` options of the
source are not modelled. -/
def stripHeartbeatToken (t : String) : String × Bool × Bool :=
  let stripped := strTrim (String.mk (replaceSubAll HEARTBEAT_TOKEN.toList [] t.toList))
  (stripped, stripped ≠ t, stripped = "")

/-- The heartbeat-token handling applied to an outgoing payload
(`src/web/auto-reply.ts:1066-1079` for tool results and `1168-1181` for
final replies): when the text contains the token, strip it; a payload that
became empty and has no media is dropped (`none`). -/
def heartbeatAdjust (p : ReplyPayload) : Option ReplyPayload :=
  match p.text with
  | none => some p
  | some t =>
    if charsContains HEARTBEAT_TOKEN.toList t.toList then
      let s := stripHeartbeatToken t
      if s.2.2 && !mediaAttachedB p then none
      else some { p with text := some s.1 }
    else some p

/-- The response-prefix rule (`src/web/auto-reply.ts:1080-1087` and
`1182-1189`): prepend `cfg.messages.responsePrefix` when configured, the
payload has text, the text is not the bare heartbeat token, and the text
does not already start with the prefix. -/
def applyRespPrefixCfg (respPrefixOpt : Option String) (p : ReplyPayload) :
    ReplyPayload :=
  match respPrefixOpt, p.text with
  | some pre, some t =>
    if pre ≠ "" && t ≠ "" && strTrim t ≠ HEARTBEAT_TOKEN && !strStartsWith t pre
    then { p with text := some (pre ++ " " ++ t) }
    else p
  | _, _ => p

/-! ### `processMessage` (`src/web/auto-reply.ts:957-1240`)

The resolver and the delivery transport are external collaborators; they
are abstracted by a `ResolverResult` (the resolver either throws or
returns a list of payloads), by the list of payloads it streamed through
`onToolResult` together with a per-payload delivery-success flag, and by a
delivery-success oracle for the final payloads.  `combinedBody` is the
composed envelope text built by `buildLine` (whose envelope formatter
`formatAgentEnvelope` is not among the provided sources); it enters the
logic below only through echo-set membership. -/

/-- The resolver boundary: `resolve(...)` either throws or returns
payloads (a single payload and `undefined` are normalized to a list by
`src/web/auto-reply.ts:1144-1148`). -/
inductive ResolverResult
  | throws
  | ok (payloads : List ReplyPayload)

/-- One `sendToolResult` invocation (`src/web/auto-reply.ts:1056-1112`)
acting on the state `(recentlySent, didSendReply)`; the `Bool` paired with
the payload tells whether its delivery succeeded. -/
def sendToolResultStep (respPrefixOpt : Option String)
    (st : List String × Bool) (pr : ReplyPayload × Bool) :
    List String × Bool :=
  if !payloadHasContent pr.1 then st
  else if isSilentReply (some pr.1) then st
  else
    match heartbeatAdjust pr.1 with
    | none => st
    | some p1 =>
      let p2 := applyRespPrefixCfg respPrefixOpt p1
      if pr.2 then
        (match p2.text with
         | some t => if t ≠ "" then recordSentTool st.1 t else st.1
         | none => st.1,
         true)
      else st

/-- One iteration of the final delivery loop
(`src/web/auto-reply.ts:1167-1235`): heartbeat-token handling (a skipped
payload is a `continue`), response prefix, delivery; on success set
`didSendReply` and record the sent text and the combined body in the echo
set; on failure only log. -/
def deliverPayloadStep (deliverOk : ReplyPayload → Bool)
    (respPrefixOpt : Option String) (combinedBody : String)
    (st : List String × Bool) (p : ReplyPayload) : List String × Bool :=
  match heartbeatAdjust p with
  | none => st
  | some p1 =>
    let p2 := applyRespPrefixCfg respPrefixOpt p1
    if deliverOk p2 then
      (match p2.text with
       | some t => if t ≠ "" then recordSentMain st.1 t combinedBody else st.1
       | none => st.1,
       true)
    else st

/-- The observable outcome of one `processMessage` run. -/
structure ProcessOutcome where
  resolverInvoked : Bool
  threw : Bool
  didSendReply : Bool
  recent : List String
  histories : List (String × List GroupHistoryEntry)

/-- `processMessage` (`src/web/auto-reply.ts:957-1240`), for a message of
the given conversation: combined-body echo check with consume-on-hit
(`:992-996`); resolver invocation with streamed tool results; on a resolver
throw the turn is dropped with the histories untouched; otherwise the
silent-reply filter (`:1150-1152`), the empty-result path (`:1154-1163`),
the delivery loop, and the clear of the conversation's group history that
is guarded by `shouldClearGroupHistory && didSendReply`
(`:1156-1158`, `:1237-1239`).  Status updates, logging and the
last-route background write are observability effects and not modelled. -/
def processMessage (isGroup : Bool) (conv : String) (combinedBody : String)
    (respPrefixOpt : Option String)
    (toolResults : List (ReplyPayload × Bool))
    (res : ResolverResult) (deliverOk : ReplyPayload → Bool)
    (recent : List String)
    (histories : List (String × List GroupHistoryEntry)) : ProcessOutcome :=
  let e := checkEcho recent combinedBody
  if e.1 then
    { resolverInvoked := false, threw := false, didSendReply := false
      recent := e.2, histories := histories }
  else
    let stTool := toolResults.foldl (sendToolResultStep respPrefixOpt) (recent, false)
    match res with
    | .throws =>
      { resolverInvoked := true, threw := true, didSendReply := stTool.2
        recent := stTool.1, histories := histories }
    | .ok payloads =>
      let sendables := sendableFilter payloads
      if sendables.isEmpty then
        { resolverInvoked := true, threw := false, didSendReply := stTool.2
          recent := stTool.1
          histories :=
            if isGroup && stTool.2 then setHist conv [] histories else histories }
      else
        let stMain :=
          sendables.foldl (deliverPayloadStep deliverOk respPrefixOpt combinedBody) stTool
        { resolverInvoked := true, threw := false, didSendReply := stMain.2
          recent := stMain.1
          histories :=
            if isGroup && stMain.2 then setHist conv [] histories else histories }

/-! ### Reply delivery engine (`deliverWebReply`,
`src/web/auto-reply.ts:501-694`) -/

/-- Modelled from the spec: `chunkText` from `src/auto-reply/chunk.js` (not
among the provided sources).  The spec requires splitting the text into
chunks "not exceeding the platform's text-size limit", preferring natural
break points "where feasible"; the model performs the plain greedy split
(break-point preference is not modelled — every claim below depends only on
chunk count and content, not on where a multi-chunk text is cut).  The
fuel argument is a step bound; `fuel = s.length` always suffices. -/
def chunkSplitGo (limit : Nat) : Nat → List Char → List (List Char)
  | 0, _ => []
  | _, [] => []
  | fuel + 1, c :: cs =>
    (c :: cs).take limit :: chunkSplitGo limit fuel ((c :: cs).drop limit)

/-- `chunkText(text, limit)`: empty text yields no chunks. -/
def chunkText (s : String) (limit : Nat) : List String :=
  (chunkSplitGo limit s.toList.length s.toList).map String.mk

/-- The media list of a payload
(`mediaUrls?.length ? mediaUrls : mediaUrl ? [mediaUrl] : []`,
`src/web/auto-reply.ts:519-523`). -/
def mediaListOf (p : ReplyPayload) : List String :=
  match p.mediaUrls with
  | some l =>
    if l ≠ [] then l
    else
      match p.mediaUrl with
      | some u => if u ≠ "" then [u] else []
      | none => []
  | none =>
    match p.mediaUrl with
    | some u => if u ≠ "" then [u] else []
    | none => []

/-- One outbound transmission produced by `deliverWebReply`: a plain text
send (`msg.reply`) or a successful media send (`msg.sendMedia`, with the
caption it carried). -/
inductive OutboundSend
  | textSend (content : String)
  | mediaSend (url : String) (caption : Option String)
deriving DecidableEq, Repr

/-- `parts.join("\n")`. -/
def joinNl : List String → String
  | [] => ""
  | [x] => x
  | x :: rest => x ++ "\n" ++ joinNl rest

/-- The media loop of `deliverWebReply` (`src/web/auto-reply.ts:590-688`),
threading the remaining text chunks.  `mediaFails u = true` abstracts a
rejection anywhere in loading or sending medium `u` (retries never turn a
deterministic failure into a success, so `sendWithRetry` collapses to the
oracle); `errMsg u` is the error's message.  For the first item the caption
is `remainingText.shift() || undefined`; on a first-item failure the
fallback text is `[remainingText.shift() ?? caption ?? "", warning]`
joined by a newline and sent only when non-empty
(`src/web/auto-reply.ts:670-686`); failures on later items produce
nothing. -/
def deliverMediaLoop (mediaFails : String → Bool) (errMsg : String → String) :
    List String → Bool → List String → List OutboundSend × List String
  | [], _, rem => ([], rem)
  | u :: us, isFirst, rem =>
    let capRem : Option String × List String :=
      if isFirst then
        match rem with
        | [] => (none, [])
        | c :: rest => (if c = "" then none else some c, rest)
      else (none, rem)
    let caption := capRem.1
    let rem1 := capRem.2
    if mediaFails u then
      if isFirst then
        let nextRem : Option String × List String :=
          match rem1 with
          | [] => (none, [])
          | c :: rest => (some c, rest)
        let warning := "⚠️ Media failed: " ++ errMsg u
        let base := (nextRem.1.getD (caption.getD ""))
        let parts := (if base ≠ "" then [base] else []) ++ [warning]
        let fallbackText := joinNl parts
        let sends :=
          if fallbackText ≠ "" then [OutboundSend.textSend fallbackText] else []
        let rest := deliverMediaLoop mediaFails errMsg us false nextRem.2
        (sends ++ rest.1, rest.2)
      else
        deliverMediaLoop mediaFails errMsg us false rem1
    else
      let rest := deliverMediaLoop mediaFails errMsg us false rem1
      (OutboundSend.mediaSend u caption :: rest.1, rest.2)

/-- `deliverWebReply` (`src/web/auto-reply.ts:501-694`) as the list of
outbound transmissions it performs: text-only replies send every chunk;
otherwise the media loop runs and the chunks left over afterwards are sent
as plain text (`src/web/auto-reply.ts:690-693`).  Text sends themselves are
modelled as succeeding (a text-send failure aborts the whole call and is
handled by the caller, which no claim below observes). -/
def deliverWebReply (p : ReplyPayload) (mediaFails : String → Bool)
    (errMsg : String → String) : List OutboundSend :=
  let textChunks := chunkText (p.text.getD "") WEB_TEXT_LIMIT
  let mediaList := mediaListOf p
  if mediaList = [] && textChunks ≠ [] then
    textChunks.map OutboundSend.textSend
  else
    let r := deliverMediaLoop mediaFails errMsg mediaList true textChunks
    r.1 ++ r.2.map OutboundSend.textSend

/-- Number of text-only sends in a transmission list. -/
def countTextSends (l : List OutboundSend) : Nat :=
  (l.filter (fun s =>
    match s with
    | OutboundSend.textSend _ => true
    | OutboundSend.mediaSend _ _ => false)).length

/-- Number of successful media sends in a transmission list. -/
def countMediaSends (l : List OutboundSend) : Nat :=
  (l.filter (fun s =>
    match s with
    | OutboundSend.textSend _ => false
    | OutboundSend.mediaSend _ _ => true)).length

/-- The concrete payload used to refute the unrestricted media-fallback
claim: a caption longer than one chunk (4000 `a`s then one `b`) plus a
single failing media URL. -/
def bigCaptionPayload : ReplyPayload :=
  { text := some (String.mk (List.replicate 4000 'a' ++ ['b']))
    mediaUrl := some "https://example.com/img.png" }

/-! ### Concrete instances used by witnesses and counterexamples -/

/-- A mention environment with no configured patterns and owner list
`["+111"]`. -/
def statusEnv : MentionEnv :=
  { mentionTest := fun _ => false, mentionStrip := fun s => s
    allowFrom := ["+111"] }

/-- Gate configuration: default mention gating, no overrides, empty store. -/
def statusCfg : GateConfig :=
  { env := statusEnv, groups := [], store := [], historyLimit := 50 }

/-- An owner-sent `/status` group message with no mention of the bot. -/
def statusMsg : WebInboundMsg :=
  { id := some "g1", body := "/status", fromAddr := "123@g.us", toAddr := "+2"
    chatType := "group", conversationId := some "123@g.us"
    senderE164 := some "+111", senderName := some "Alice"
    selfE164 := some "+999" }

/-- Self-chat environment: the bot's own number is the allowed sender. -/
def selfChatEnv : MentionEnv :=
  { mentionTest := fun _ => false, mentionStrip := fun s => s
    allowFrom := ["+999"] }

/-- A group message carrying a platform `@mention` of the owner's own JID,
with no textual mention of the bot. -/
def selfChatMsg : WebInboundMsg :=
  { body := "@owner ping", fromAddr := "123@g.us", toAddr := "+2"
    chatType := "group", conversationId := some "123@g.us"
    senderE164 := some "+111", senderName := some "Alice"
    selfE164 := some "+999", selfJid := some "999@s.whatsapp.net"
    mentionedJids := ["999@s.whatsapp.net"] }

/-- Gate configuration whose session store sets the group activation of
`123@g.us` to `always`. -/
def alwaysCfg : GateConfig :=
  { env := { mentionTest := fun _ => false, mentionStrip := fun s => s
             allowFrom := [] }
    groups := [], store := [("whatsapp:group:123@g.us", some "always")]
    historyLimit := 50 }

/-- A plain group message with no mention and no command. -/
def alwaysMsg : WebInboundMsg :=
  { body := "hello", fromAddr := "123@g.us", toAddr := "+2"
    chatType := "group", conversationId := some "123@g.us"
    senderE164 := some "+111", selfE164 := some "+999" }

/-! ## Helper lemmas -/

theorem charsPrefixOf_self_append (a b : List Char) :
    charsPrefixOf a (a ++ b) = true := by
  induction a with
  | nil => rfl
  | cons c cs ih => simp [charsPrefixOf, ih]

theorem charsContains_of_prefixB (n h : List Char)
    (hp : charsPrefixOf n h = true) : charsContains n h = true := by
  cases h with
  | nil =>
    cases n with
    | nil => rfl
    | cons c cs => simp [charsPrefixOf] at hp
  | cons c t => simp [charsContains, hp]

theorem charsContains_append_left (x n y : List Char)
    (hc : charsContains n y = true) : charsContains n (x ++ y) = true := by
  induction x with
  | nil => simpa using hc
  | cons c cs ih => simp [charsContains, ih]

theorem charsPrefixOf_length (n h : List Char)
    (hp : charsPrefixOf n h = true) : n.length ≤ h.length := by
  induction n generalizing h with
  | nil => simp
  | cons a as ih =>
    cases h with
    | nil => simp [charsPrefixOf] at hp
    | cons b bs =>
      simp only [charsPrefixOf, Bool.and_eq_true] at hp
      have := ih bs hp.2
      simpa using Nat.succ_le_succ this

theorem charsContains_length (n h : List Char)
    (hc : charsContains n h = true) : n.length ≤ h.length := by
  induction h with
  | nil =>
    cases n with
    | nil => simp
    | cons a as => simp [charsContains, List.isEmpty] at hc
  | cons c t ih =>
    simp only [charsContains, Bool.or_eq_true] at hc
    rcases hc with hp | hc
    · exact charsPrefixOf_length _ _ hp
    · exact Nat.le_succ_of_le (by simpa using ih hc)

theorem strToList_append (s t : String) : (s ++ t).toList = s.toList ++ t.toList :=
  rfl

theorem mkStr_ne_empty (l : List Char) (h : l ≠ []) : String.mk l ≠ "" := by
  intro he
  exact h (congrArg String.data he)

theorem strAppend_ne_empty_left (s t : String) (h : s ≠ "") : s ++ t ≠ "" := by
  intro he
  have hd : s.data ++ t.data = ([] : List Char) := congrArg String.data he
  have : s.data = [] := by
    rcases List.append_eq_nil.mp hd with ⟨h1, _⟩
    exact h1
  exact h (by cases s; simp_all)

/-! Group-history helpers -/

theorem shiftWhileOver_eq_drop (limit : Nat) (l : List GroupHistoryEntry) :
    shiftWhileOver limit l = l.drop (l.length - limit) := by
  induction l with
  | nil => simp [shiftWhileOver]
  | cons x xs ih =>
    by_cases h : limit < (x :: xs).length
    · rw [shiftWhileOver, if_pos h, ih]
      have hle : limit ≤ xs.length := by simpa using Nat.lt_succ_iff.mp h
      have harith : (x :: xs).length - limit = (xs.length - limit) + 1 := by
        simp only [List.length_cons]; omega
      rw [harith, List.drop_succ_cons]
    · rw [shiftWhileOver, if_neg h]
      have : (x :: xs).length - limit = 0 := by
        simp only [List.length_cons] at *; omega
      rw [this, List.drop_zero]

theorem appendGroupHistory_length_le (limit : Nat)
    (h : List GroupHistoryEntry) (e : GroupHistoryEntry) :
    (appendGroupHistory limit h e).length ≤ limit := by
  rw [appendGroupHistory, shiftWhileOver_eq_drop, List.length_drop]
  omega

theorem foldl_appendGroupHistory (limit : Nat) (msgs h : List GroupHistoryEntry)
    (hh : h.length ≤ limit) :
    List.foldl (appendGroupHistory limit) h msgs =
      (h ++ msgs).drop (h.length + msgs.length - limit) := by
  induction msgs generalizing h with
  | nil =>
    simp only [List.foldl_nil, List.append_nil, List.length_nil, Nat.add_zero]
    have : h.length - limit = 0 := by omega
    rw [this, List.drop_zero]
  | cons m ms ih =>
    rw [List.foldl_cons]
    have hstep : appendGroupHistory limit h m =
        (h ++ [m]).drop (h.length + 1 - limit) := by
      rw [appendGroupHistory, shiftWhileOver_eq_drop]
      simp
    have hlen : (appendGroupHistory limit h m).length ≤ limit :=
      appendGroupHistory_length_le limit h m
    rw [ih (appendGroupHistory limit h m) hlen, hstep]
    have hd1 : h.length + 1 - limit ≤ (h ++ [m]).length := by
      simp only [List.length_append, List.length_singleton]; omega
    have hlen2 : ((h ++ [m]).drop (h.length + 1 - limit)).length =
        h.length + 1 - (h.length + 1 - limit) := by
      rw [List.length_drop]; simp
    rw [hlen2, ← List.drop_append_of_le_length hd1, List.drop_drop]
    have hassoc : (h ++ [m]) ++ ms = h ++ m :: ms := by simp
    rw [hassoc]
    congr 1
    simp only [List.length_cons]
    omega

theorem getHist_cons (conv : String) (kv : String × List GroupHistoryEntry)
    (rest : List (String × List GroupHistoryEntry)) :
    getHist conv (kv :: rest) = if kv.1 = conv then kv.2 else getHist conv rest := by
  by_cases h : kv.1 = conv
  · simp [getHist, List.find?, h]
  · simp [getHist, List.find?, h]

theorem getHist_setHist (conv : String) (v : List GroupHistoryEntry)
    (hs : List (String × List GroupHistoryEntry)) :
    getHist conv (setHist conv v hs) = v := by
  induction hs with
  | nil => simp [getHist, setHist, List.find?]
  | cons kv tl ih =>
    by_cases hk : kv.1 = conv
    · have hany : ((kv :: tl).any fun kv => decide (kv.1 = conv)) = true := by
        simp [List.any_cons, hk]
      simp only [setHist]
      rw [if_pos hany, List.map_cons, if_pos hk, getHist_cons]
      simp [hk]
    · by_cases ht : (tl.any fun kv => decide (kv.1 = conv)) = true
      · have hany : ((kv :: tl).any fun kv => decide (kv.1 = conv)) = true := by
          simp [List.any_cons, ht]
        simp only [setHist]
        rw [if_pos hany, List.map_cons, if_neg hk, getHist_cons, if_neg hk]
        have ihx := ih
        simp only [setHist] at ihx
        rw [if_pos ht] at ihx
        exact ihx
      · have hany : ((kv :: tl).any fun kv => decide (kv.1 = conv)) = false := by
          simp only [List.any_cons, Bool.or_eq_false_iff]
          refine ⟨by simpa using hk, ?_⟩
          cases h2 : (tl.any fun kv => decide (kv.1 = conv)) with
          | false => rfl
          | true => exact absurd h2 ht
        simp only [setHist]
        rw [if_neg (by simp [hany]), List.cons_append, getHist_cons, if_neg hk]
        have ihx := ih
        simp only [setHist] at ihx
        rw [if_neg (by simp only [ht]; exact Bool.false_ne_true)] at ihx
        exact ihx

/-! Monitor-loop helper -/

theorem monitorLoop_cons_immediate (p : ReconnectPolicy) (a : Nat)
    (rest : List ConnectionRun) :
    monitorLoop p a (immediateClose :: rest) =
      if 0 < p.maxAttempts ∧ p.maxAttempts ≤ a + 1 then
        (1, MonitorOutcome.stopped)
      else
        ((monitorLoop p (a + 1) rest).1 + 1, (monitorLoop p (a + 1) rest).2) :=
  rfl

theorem monitorLoop_replicate_immediate (p : ReconnectPolicy) :
    ∀ (k a : Nat), a + (k + 1) = p.maxAttempts →
      monitorLoop p a (List.replicate (k + 1) immediateClose) =
        (k + 1, MonitorOutcome.stopped) := by
  intro k
  induction k with
  | zero =>
    intro a ha
    rw [List.replicate_succ, List.replicate_zero, monitorLoop_cons_immediate,
      if_pos (by omega)]
  | succ k ih =>
    intro a ha
    rw [List.replicate_succ, monitorLoop_cons_immediate, if_neg (by omega),
      ih (a + 1) (by omega)]

/-! ## Claim theorems -/

/-- C7: For every conversation and every sequence of appended group
messages, the group history buffer never exceeds its configured cap
(default 50), and eviction is FIFO: after inserting `cap + k` entries the
survivors are exactly the last `cap` entries in order (`List.drop` of the
excess), per the push-and-shift loop of `src/web/auto-reply.ts:1286-1301`. -/
theorem group_history_bounded_and_fifo :
    (∀ (cap : Nat) (h : List GroupHistoryEntry) (e : GroupHistoryEntry),
        (appendGroupHistory cap h e).length ≤ cap) ∧
    (∀ (cap : Nat) (msgs : List GroupHistoryEntry),
        List.foldl (appendGroupHistory cap) [] msgs =
          msgs.drop (msgs.length - cap)) ∧
    DEFAULT_GROUP_HISTORY_LIMIT = 50 := by
  refine ⟨appendGroupHistory_length_le, ?_, rfl⟩
  intro cap msgs
  have := foldl_appendGroupHistory cap msgs [] (by simp)
  simpa using this

/-- C8: Echo suppression is one-shot: a membership hit consumes the entry,
so for a duplicate-free echo set (JavaScript `Set`s never hold duplicates),
if `shouldSuppress x` (the `has`/`delete` pair of
`src/web/auto-reply.ts:1259-1267` and `992-996`) answers `true`, then a
second call on the resulting set answers `false`. -/
theorem echo_suppress_consumes_entry :
    ∀ (s : List String) (x : String), s.Nodup →
      (checkEcho s x).1 = true →
      (checkEcho (checkEcho s x).2 x).1 = false := by
  intro s x hnd hfirst
  by_cases hm : x ∈ s
  · simp only [checkEcho, if_pos hm]
    have hnot : x ∉ s.erase x := by
      intro hmem
      have := (List.Nodup.mem_erase_iff hnd).mp hmem
      exact this.1 rfl
    simp [hnot]
  · simp [checkEcho, hm] at hfirst

/-- C8 witness: on the concrete set `["a", "b"]`, suppressing `"a"` answers
`true` and then `false`. -/
theorem echo_suppress_consumes_entry_witness :
    (checkEcho ["a", "b"] "a").1 = true ∧
    (checkEcho (checkEcho ["a", "b"] "a").2 "a").1 = false :=
  ⟨by decide, echo_suppress_consumes_entry ["a", "b"] "a" (by decide) (by decide)⟩

/-- C2: the echo-set bound is violated by the code.  Starting from a
100-entry set of distinct bodies (exactly at `MAX_RECENT_MESSAGES`), the
main-reply bookkeeping of `src/web/auto-reply.ts:1201-1210` inserts two
fresh bodies (`replyPayload.text` and `combinedBody`) but runs the eviction
check only once, leaving 101 entries — the set exceeds the claimed maximum
of 100 (and grows by one on every such send). -/
theorem echo_set_exceeds_cap_after_full_update :
    echoFullState.length = 100 ∧ echoFullState.Nodup ∧
    (recordSentMain echoFullState "x" "y").length = 101 ∧
    MAX_RECENT_MESSAGES < (recordSentMain echoFullState "x" "y").length := by
  refine ⟨by decide, by decide, ?_, ?_⟩ <;> decide

/-- C1 counterexample: with `maxAttempts = 1` and a listener whose
`onClose` resolves immediately once (non-terminal), the monitor stops after
exactly one factory invocation — not `1 + 1 = 2` as the claim's `N + 1`
formula predicts (`src/web/auto-reply.ts:1499-1520` breaks as soon as the
incremented attempt counter reaches `maxAttempts`). -/
theorem monitor_reconnect_claim_counterexample :
    monitorLoop (policyWithMax 1) 0 (List.replicate 1 immediateClose) =
      (1, MonitorOutcome.stopped) ∧
    (monitorLoop (policyWithMax 1) 0 (List.replicate 1 immediateClose)).1 ≠ 1 + 1 := by
  constructor <;> decide

/-- C1 (amended): for every reconnect policy with `maxAttempts = N > 0` and
a listener factory whose `onClose` resolves immediately on each invocation
(non-terminal, not logged out), the monitor loop invokes the listener
factory exactly `N` times and then stops permanently (no further factory
invocation, no infinite loop). -/
theorem monitor_reconnect_stops_after_max (p : ReconnectPolicy)
    (h : 0 < p.maxAttempts) :
    monitorLoop p 0 (List.replicate p.maxAttempts immediateClose) =
      (p.maxAttempts, MonitorOutcome.stopped) := by
  obtain ⟨k, hk⟩ : ∃ k, p.maxAttempts = k + 1 := ⟨p.maxAttempts - 1, by omega⟩
  rw [hk]
  exact monitorLoop_replicate_immediate p k 0 (by omega)

/-- C1 witness: policy with `maxAttempts = 3`, three immediate closes,
three factory invocations, stopped. -/
theorem monitor_reconnect_stops_after_max_witness :
    monitorLoop (policyWithMax 3) 0 (List.replicate 3 immediateClose) =
      (3, MonitorOutcome.stopped) :=
  monitor_reconnect_stops_after_max (policyWithMax 3) (by decide)

/-- C4 counterexample: a connection that has been up for longer than the
30-minute hard timeout without ever receiving a message satisfies the
claim's condition (no inbound message for longer than the timeout), yet the
watchdog does not force-close: the tick body is guarded by
`if (lastMessageAt)` (`src/web/auto-reply.ts:1389`), and `lastMessageAt`
is still `null` on a connection that never received a message
(`src/web/auto-reply.ts:910`). -/
theorem watchdog_without_any_message_counterexample :
    noInboundLongerThan 0 none (MESSAGE_TIMEOUT_MS + 1) ∧
    watchdogShouldForceClose none (MESSAGE_TIMEOUT_MS + 1) = false := by
  constructor <;> decide

/-- C4 (amended): once at least one inbound message has arrived on the
current connection (at time `t`) and more than the 30-minute hard timeout
has since elapsed, the watchdog tick force-closes the connection; the
injected close reason (status 499, not logged out) then makes the monitor
loop invoke the factory again — a reconnection cycle begins without
`onClose` having resolved on its own. -/
theorem watchdog_force_close_after_silence :
    ∀ (t now : Nat), MESSAGE_TIMEOUT_MS < now - t →
      watchdogShouldForceClose (some t) now = true ∧
      ∀ (p : ReconnectPolicy) (a : Nat), p.maxAttempts = 0 →
        monitorLoop p a
            [{ reason := watchdogCloseReason, uptimeHealthy := true }] =
          (2, MonitorOutcome.waitingOnClose) := by
  intro t now h
  constructor
  · simp [watchdogShouldForceClose, h]
  · intro p a hp
    simp only [monitorLoop, watchdogCloseReason, Bool.false_eq_true,
      not_false_eq_true, if_false]
    rw [if_neg (by omega)]

/-- C4 witness: a message at time 0, a tick at `MESSAGE_TIMEOUT_MS + 1`,
an unlimited-retry policy. -/
theorem watchdog_force_close_after_silence_witness :
    watchdogShouldForceClose (some 0) (MESSAGE_TIMEOUT_MS + 1) = true ∧
    monitorLoop (policyWithMax 0) 0
        [{ reason := watchdogCloseReason, uptimeHealthy := true }] =
      (2, MonitorOutcome.waitingOnClose) := by
  have h := watchdog_force_close_after_silence 0 (MESSAGE_TIMEOUT_MS + 1) (by decide)
  exact ⟨h.1, h.2 (policyWithMax 0) 0 rfl⟩

/-! `processMessage` helpers -/

theorem sendToolResultStep_noSend (respP : Option String)
    (st : List String × Bool) (p : ReplyPayload) :
    sendToolResultStep respP st (p, false) = st := by
  unfold sendToolResultStep
  split
  · rfl
  · split
    · rfl
    · cases heartbeatAdjust p with
      | none => rfl
      | some p1 => simp

theorem foldl_toolSteps_noSend (respP : Option String) :
    ∀ (trs : List (ReplyPayload × Bool)) (st : List String × Bool),
      (∀ pr ∈ trs, (pr : ReplyPayload × Bool).2 = false) →
      trs.foldl (sendToolResultStep respP) st = st := by
  intro trs
  induction trs with
  | nil => intro st _; rfl
  | cons pr tl ih =>
    intro st h
    obtain ⟨p, b⟩ := pr
    have hb : b = false := h (p, b) (by simp)
    subst hb
    rw [List.foldl_cons, sendToolResultStep_noSend]
    exact ih st (fun q hq => h q (by simp [hq]))

theorem deliverPayloadStep_noSend (dOk : ReplyPayload → Bool)
    (respP : Option String) (cb : String) (st : List String × Bool)
    (p : ReplyPayload) (h : ∀ q, dOk q = false) :
    deliverPayloadStep dOk respP cb st p = st := by
  unfold deliverPayloadStep
  cases heartbeatAdjust p with
  | none => rfl
  | some p1 => simp [h]

theorem foldl_deliverSteps_noSend (dOk : ReplyPayload → Bool)
    (respP : Option String) (cb : String) (h : ∀ q, dOk q = false) :
    ∀ (l : List ReplyPayload) (st : List String × Bool),
      l.foldl (deliverPayloadStep dOk respP cb) st = st := by
  intro l
  induction l with
  | nil => intro st; rfl
  | cons p tl ih =>
    intro st
    rw [List.foldl_cons, deliverPayloadStep_noSend dOk respP cb st p h]
    exact ih st

/-- C6: A conversation's group history buffer is cleared only after a reply
is actually sent (the clear at `src/web/auto-reply.ts:1156-1158` and
`1237-1239` is guarded by `didSendReply`); in particular, when no tool
result was delivered successfully and every delivery attempt fails — which
covers a resolver that throws, returns nothing, or returns only
silent-token payloads — nothing is sent and the buffered history is left
unchanged for the next turn. -/
theorem group_history_preserved_without_successful_send :
    ∀ (isGroup : Bool) (conv cb : String) (respP : Option String)
      (trs : List (ReplyPayload × Bool)) (res : ResolverResult)
      (dOk : ReplyPayload → Bool) (recent : List String)
      (hist : List (String × List GroupHistoryEntry)),
      ((processMessage isGroup conv cb respP trs res dOk recent hist).histories ≠
          hist →
        (processMessage isGroup conv cb respP trs res dOk recent hist).didSendReply =
          true) ∧
      ((∀ pr ∈ trs, (pr : ReplyPayload × Bool).2 = false) →
        (∀ q, dOk q = false) →
        (processMessage isGroup conv cb respP trs res dOk recent hist).didSendReply =
            false ∧
          (processMessage isGroup conv cb respP trs res dOk recent hist).histories =
            hist) := by
  intro isGroup conv cb respP trs res dOk recent hist
  by_cases hE : (checkEcho recent cb).1 = true
  · constructor
    · intro hne
      exact absurd (by simp [processMessage, hE]) hne
    · intro _ _
      exact ⟨by simp [processMessage, hE], by simp [processMessage, hE]⟩
  · have hE' : (checkEcho recent cb).1 = false := by
      cases h2 : (checkEcho recent cb).1 with
      | false => rfl
      | true => exact absurd h2 hE
    cases res with
    | throws =>
      constructor
      · intro hne
        exact absurd (by simp [processMessage, hE']) hne
      · intro h1 _
        refine ⟨?_, by simp [processMessage, hE']⟩
        simp [processMessage, hE', foldl_toolSteps_noSend respP trs (recent, false) h1]
    | ok payloads =>
      by_cases hS : (sendableFilter payloads).isEmpty = true
      · constructor
        · intro hne
          by_cases hG :
              (isGroup &&
                (trs.foldl (sendToolResultStep respP) (recent, false)).2) = true
          · simp only [processMessage, hE', hS, Bool.false_eq_true, if_false,
              if_true]
            exact (Bool.and_eq_true _ _ |>.mp hG).2
          · exact absurd (by simp [processMessage, hE', hS, hG]) hne
        · intro h1 _
          have hfold := foldl_toolSteps_noSend respP trs (recent, false) h1
          constructor
          · simp [processMessage, hE', hS, hfold]
          · simp [processMessage, hE', hS, hfold]
      · constructor
        · intro hne
          by_cases hG :
              (isGroup &&
                ((sendableFilter payloads).foldl
                    (deliverPayloadStep dOk respP cb)
                    (trs.foldl (sendToolResultStep respP) (recent, false))).2) =
                true
          · simp only [processMessage, hE', hS, Bool.false_eq_true, if_false,
              if_true]
            exact (Bool.and_eq_true _ _ |>.mp hG).2
          · exact absurd (by simp [processMessage, hE', hS, hG]) hne
        · intro h1 h2
          have hfold1 := foldl_toolSteps_noSend respP trs (recent, false) h1
          have hfold2 :=
            foldl_deliverSteps_noSend dOk respP cb h2 (sendableFilter payloads)
              (trs.foldl (sendToolResultStep respP) (recent, false))
          rw [hfold1] at hfold2
          constructor
          · simp [processMessage, hE', hS, hfold1, hfold2]
          · simp [processMessage, hE', hS, hfold1, hfold2]

/-- C6 witness: a group turn whose resolver returns one plain payload, with
no tool results and a transport on which every delivery fails, sends
nothing and leaves the buffered history untouched. -/
theorem group_history_preserved_without_successful_send_witness :
    (processMessage true "c" "cb" none [] (ResolverResult.ok [{ text := some "hi" }])
        (fun _ => false) []
        [("c", [{ sender := "A", body := "x", timestamp := none }])]).didSendReply =
        false ∧
      (processMessage true "c" "cb" none []
          (ResolverResult.ok [{ text := some "hi" }]) (fun _ => false) []
          [("c", [{ sender := "A", body := "x", timestamp := none }])]).histories =
        [("c", [{ sender := "A", body := "x", timestamp := none }])] :=
  (group_history_preserved_without_successful_send true "c" "cb" none []
      (ResolverResult.ok [{ text := some "hi" }]) (fun _ => false) []
      [("c", [{ sender := "A", body := "x", timestamp := none }])]).2
    (by simp) (fun _ => rfl)

/-! Gate helpers -/

theorem gate_stored (cfg : GateConfig) (recent : List String)
    (hist : List (String × List GroupHistoryEntry)) (msg : WebInboundMsg)
    (hg : msg.chatType = "group")
    (he : msg.body ∉ recent)
    (hcmd : parseActivationHasCommand
        (stripMentionsForCommand cfg.env msg.selfE164 msg.body) = false)
    (hstat : isStatusCommand
        (stripMentionsForCommand cfg.env msg.selfE164 msg.body) = false)
    (hact : resolveGroupActivationFor cfg.groups cfg.store
        (msg.conversationId.getD msg.fromAddr) ≠ "always")
    (hm : isBotMentioned cfg.env msg = false) :
    onMessageGate cfg recent hist msg =
      { decision := .storedForContext, recent := recent
        histories :=
          setHist (msg.conversationId.getD msg.fromAddr)
            (appendGroupHistory cfg.historyLimit
              (getHist (msg.conversationId.getD msg.fromAddr) hist)
              (entryOfMsg msg))
            hist } := by
  simp [onMessageGate, checkEcho, he, hg, hcmd, hstat, hm, hact]

theorem gate_process_always (cfg : GateConfig) (recent : List String)
    (hist : List (String × List GroupHistoryEntry)) (msg : WebInboundMsg)
    (hg : msg.chatType = "group")
    (he : msg.body ∉ recent)
    (hcmd : parseActivationHasCommand
        (stripMentionsForCommand cfg.env msg.selfE164 msg.body) = false)
    (hstat : isStatusCommand
        (stripMentionsForCommand cfg.env msg.selfE164 msg.body) = false)
    (hact : resolveGroupActivationFor cfg.groups cfg.store
        (msg.conversationId.getD msg.fromAddr) = "always") :
    onMessageGate cfg recent hist msg =
      { decision := .process, recent := recent
        histories :=
          setHist (msg.conversationId.getD msg.fromAddr)
            (appendGroupHistory cfg.historyLimit
              (getHist (msg.conversationId.getD msg.fromAddr) hist)
              (entryOfMsg msg))
            hist } := by
  simp [onMessageGate, checkEcho, he, hg, hcmd, hstat, hact]

theorem processMessage_resolverInvoked (isGroup : Bool) (conv cb : String)
    (respP : Option String) (trs : List (ReplyPayload × Bool))
    (res : ResolverResult) (dOk : ReplyPayload → Bool) (recent : List String)
    (hist : List (String × List GroupHistoryEntry)) (h : cb ∉ recent) :
    (processMessage isGroup conv cb respP trs res dOk recent hist).resolverInvoked =
      true := by
  have hE : checkEcho recent cb = (false, recent) := by simp [checkEcho, h]
  cases res with
  | throws => simp [processMessage, hE]
  | ok payloads =>
    by_cases hS : (sendableFilter payloads).isEmpty = true <;>
      simp [processMessage, hE, hS]

/-- C5 (amended): for every inbound group message whose raw body does not
hit echo suppression and that is neither an activation command nor a status
command (in particular no owner bypass applies): if the conversation's
activation mode is `mention` and no mention of the bot is detected, the
message is archived into the group history and reply processing is not
reached (so the resolver is never invoked); if the activation mode is
`always`, reply processing is reached and invokes the resolver (subject
only to the composed envelope not itself hitting echo suppression). -/
theorem group_gate_mention_vs_always
    (cfg : GateConfig) (recent : List String)
    (hist : List (String × List GroupHistoryEntry)) (msg : WebInboundMsg)
    (hg : msg.chatType = "group")
    (he : msg.body ∉ recent)
    (hcmd : parseActivationHasCommand
        (stripMentionsForCommand cfg.env msg.selfE164 msg.body) = false)
    (hstat : isStatusCommand
        (stripMentionsForCommand cfg.env msg.selfE164 msg.body) = false) :
    (resolveGroupActivationFor cfg.groups cfg.store
          (msg.conversationId.getD msg.fromAddr) ≠ "always" →
      isBotMentioned cfg.env msg = false →
      (onMessageGate cfg recent hist msg).decision =
          InboundDecision.storedForContext ∧
        getHist (msg.conversationId.getD msg.fromAddr)
            (onMessageGate cfg recent hist msg).histories =
          appendGroupHistory cfg.historyLimit
            (getHist (msg.conversationId.getD msg.fromAddr) hist)
            (entryOfMsg msg)) ∧
    (resolveGroupActivationFor cfg.groups cfg.store
          (msg.conversationId.getD msg.fromAddr) = "always" →
      (onMessageGate cfg recent hist msg).decision = InboundDecision.process ∧
        ∀ (conv cb : String) (respP : Option String)
          (trs : List (ReplyPayload × Bool)) (res : ResolverResult)
          (dOk : ReplyPayload → Bool),
          cb ∉ (onMessageGate cfg recent hist msg).recent →
          (processMessage true conv cb respP trs res dOk
              (onMessageGate cfg recent hist msg).recent
              (onMessageGate cfg recent hist msg).histories).resolverInvoked =
            true) := by
  constructor
  · intro hact hm
    rw [gate_stored cfg recent hist msg hg he hcmd hstat hact hm]
    exact ⟨rfl, getHist_setHist _ _ _⟩
  · intro hact
    rw [gate_process_always cfg recent hist msg hg he hcmd hstat hact]
    refine ⟨rfl, ?_⟩
    intro conv cb respP trs res dOk hcb
    exact processMessage_resolverInvoked true conv cb respP trs res dOk _ _ hcb

/-- C5 witness: with the group's activation stored as `always` and a plain
mention-free message, the gate reaches reply processing. -/
theorem group_gate_mention_vs_always_witness :
    (onMessageGate alwaysCfg [] [] alwaysMsg).decision =
      InboundDecision.process :=
  ((group_gate_mention_vs_always alwaysCfg [] [] alwaysMsg rfl (by simp)
        (by decide) (by decide)).2
      (by decide)).1

/-- C5 counterexample: an owner-sent `/status` group message with activation
mode `mention` and no mention of the bot is NOT archived (`histories` stays
empty) and DOES reach reply processing — the owner status-command bypass of
`src/web/auto-reply.ts:1276-1277` contradicts the unrestricted claim that
such a message is archived and the resolver never invoked. -/
theorem group_gate_owner_status_counterexample :
    resolveGroupActivationFor statusCfg.groups statusCfg.store "123@g.us" =
        "mention" ∧
    isBotMentioned statusCfg.env statusMsg = false ∧
    (onMessageGate statusCfg [] [] statusMsg).decision =
        InboundDecision.process ∧
    (onMessageGate statusCfg [] [] statusMsg).histories = [] := by
  refine ⟨?_, ?_, ?_, ?_⟩ <;> decide

/-- C9: In self-chat mode, the platform `mentionedJids` branch of
`isBotMentioned` is disabled (`src/web/auto-reply.ts:134,144-146`): the
result does not depend on `mentionedJids` at all; when additionally neither
the configured textual mention patterns nor the digit fallback match the
body, the message does not count as a bot mention, and under
mention-required activation the gate archives it without reaching reply
processing — the resolver is not triggered. -/
theorem selfchat_platform_mention_ignored
    (env : MentionEnv) (msg : WebInboundMsg)
    (hself : isSelfChatMode msg.selfE164 env.allowFrom = true) :
    (isBotMentioned env msg =
        isBotMentioned env { msg with mentionedJids := [] }) ∧
    (env.mentionTest (cleanBody msg.body) = false →
      digitFallbackHit msg = false →
      isBotMentioned env msg = false) ∧
    (∀ (cfg : GateConfig) (recent : List String)
        (hist : List (String × List GroupHistoryEntry)),
      cfg.env = env →
      msg.chatType = "group" →
      msg.body ∉ recent →
      parseActivationHasCommand
          (stripMentionsForCommand env msg.selfE164 msg.body) = false →
      isStatusCommand (stripMentionsForCommand env msg.selfE164 msg.body) =
          false →
      resolveGroupActivationFor cfg.groups cfg.store
          (msg.conversationId.getD msg.fromAddr) ≠ "always" →
      env.mentionTest (cleanBody msg.body) = false →
      digitFallbackHit msg = false →
      (onMessageGate cfg recent hist msg).decision =
        InboundDecision.storedForContext) := by
  refine ⟨?_, ?_, ?_⟩
  · simp [isBotMentioned, digitFallbackHit, hself]
  · intro ht hd
    simp [isBotMentioned, hself, ht, hd]
  · intro cfg recent hist hce hg he hcmd hstat hact ht hd
    subst hce
    have hm : isBotMentioned cfg.env msg = false := by
      simp [isBotMentioned, hself, ht, hd]
    rw [gate_stored cfg recent hist msg hg he hcmd hstat hact hm]

/-- C9 witness: a platform `@mention` of the owner's own JID in self-chat
mode, with no textual match, is not a bot mention. -/
theorem selfchat_platform_mention_ignored_witness :
    isBotMentioned selfChatEnv selfChatMsg = false :=
  (selfchat_platform_mention_ignored selfChatEnv selfChatMsg (by decide)).2.1
    rfl (by decide)

/-- C10: Silent-reply suppression applies exactly to pure-text silent-token
payloads: `isSilentReply` answers `true` precisely when the trimmed text
equals the silent token and no media is attached
(`src/web/auto-reply.ts:185-191`), and the `sendableReplies` filter
(`src/web/auto-reply.ts:1150-1152`) keeps any payload — in particular one
whose text is the token but which carries media — unless `isSilentReply`
holds. -/
theorem silent_reply_text_only :
    ∀ (p : ReplyPayload),
      isSilentReply (some p) =
          (decide (strTrim (p.text.getD "") = SILENT_REPLY_TOKEN) &&
            !mediaAttachedB p) ∧
        sendableFilter [p] = (if isSilentReply (some p) then [] else [p]) := by
  intro p
  constructor
  · cases htext : p.text with
    | none =>
      simp [isSilentReply, htext, show strTrim "" = "" from rfl,
        SILENT_REPLY_TOKEN]
    | some raw =>
      by_cases ht : strTrim raw = SILENT_REPLY_TOKEN
      · have hne : ¬(strTrim raw = "") := by rw [ht]; decide
        by_cases hm : mediaAttachedB p = true
        · simp [isSilentReply, htext, ht, hne, hm]
        · have hm' : mediaAttachedB p = false := by
            cases h2 : mediaAttachedB p with
            | false => rfl
            | true => exact absurd h2 hm
          simp [isSilentReply, htext, ht, hne, hm']
          decide
      · simp [isSilentReply, htext, ht]
  · cases h : isSilentReply (some p) with
    | false => simp [sendableFilter, List.filter_cons, h]
    | true => simp [sendableFilter, List.filter_cons, h]

/-! Chunking helpers -/

theorem chunkSplitGo_nil (limit fuel : Nat) : chunkSplitGo limit fuel [] = [] := by
  cases fuel <;> rfl

theorem chunkSplitGo_cons (limit fuel : Nat) (l : List Char) (h : l ≠ []) :
    chunkSplitGo limit (fuel + 1) l =
      l.take limit :: chunkSplitGo limit fuel (l.drop limit) := by
  cases l with
  | nil => exact absurd rfl h
  | cons c cs => rfl

theorem chunkSplitGo_singleton (limit fuel : Nat) (hl : 0 < limit) (c : Char) :
    chunkSplitGo limit (fuel + 1) [c] = [[c]] := by
  rw [chunkSplitGo_cons limit fuel [c] (by simp)]
  have h1 : [c].take limit = [c] := List.take_of_length_le (by simpa using hl)
  have h2 : [c].drop limit = [] := List.drop_eq_nil_of_le (by simpa using hl)
  rw [h1, h2, chunkSplitGo_nil]

theorem bigCaption_chunks :
    chunkText (String.mk (List.replicate 4000 'a' ++ ['b'])) WEB_TEXT_LIMIT =
      [String.mk (List.replicate 4000 'a'), "b"] := by
  have htl : (String.mk (List.replicate 4000 'a' ++ ['b'])).toList =
      List.replicate 4000 'a' ++ ['b'] := rfl
  unfold chunkText WEB_TEXT_LIMIT
  rw [htl]
  have hlen : (List.replicate 4000 'a' ++ ['b']).length = 4000 + 1 := by
    simp [-List.reduceReplicate]
  rw [hlen]
  rw [chunkSplitGo_cons 4000 4000 _ (by simp [-List.reduceReplicate])]
  rw [List.take_left' (by simp [-List.reduceReplicate]),
    List.drop_left' (by simp [-List.reduceReplicate])]
  have hs : chunkSplitGo 4000 4000 ['b'] = [['b']] := by
    have h := chunkSplitGo_singleton 4000 3999 (by norm_num) 'b'
    norm_num at h
    exact h
  rw [hs]
  rfl

/-- C3 (amended): for a resolver reply whose text fits in a single chunk
(at most the 4000-character web text limit) plus one failing `mediaUrl`,
delivery produces exactly one outbound text-only send combining the caption
text with the `Media failed` indicator, and zero successful media sends;
with a second media item that also fails, no further fallback send is
produced (`src/web/auto-reply.ts:587-694`). -/
theorem media_fallback_single_chunk
    (t u u2 : String) (mediaFails : String → Bool) (errMsg : String → String)
    (ht : t ≠ "") (hu : u ≠ "")
    (hchunk : chunkText t WEB_TEXT_LIMIT = [t])
    (hfail : mediaFails u = true) :
    (deliverWebReply { text := some t, mediaUrl := some u } mediaFails errMsg =
        [OutboundSend.textSend (t ++ "\n" ++ ("⚠️ Media failed: " ++ errMsg u))]) ∧
    countMediaSends
        (deliverWebReply { text := some t, mediaUrl := some u } mediaFails errMsg) =
      0 ∧
    countTextSends
        (deliverWebReply { text := some t, mediaUrl := some u } mediaFails errMsg) =
      1 ∧
    strContainsB (t ++ "\n" ++ ("⚠️ Media failed: " ++ errMsg u)) t = true ∧
    strContainsB (t ++ "\n" ++ ("⚠️ Media failed: " ++ errMsg u)) "Media failed" =
      true ∧
    (mediaFails u2 = true →
      deliverWebReply { text := some t, mediaUrls := some [u, u2] } mediaFails
          errMsg =
        [OutboundSend.textSend (t ++ "\n" ++ ("⚠️ Media failed: " ++ errMsg u))]) := by
  have hfb : (t ++ "\n") ++ ("⚠️ Media failed: " ++ errMsg u) ≠ "" :=
    strAppend_ne_empty_left _ _ (strAppend_ne_empty_left t "\n" ht)
  have hml : mediaListOf { text := some t, mediaUrl := some u } = [u] := by
    simp [mediaListOf, hu]
  have hloop :
      deliverMediaLoop mediaFails errMsg [u] true [t] =
        ([OutboundSend.textSend (t ++ "\n" ++ ("⚠️ Media failed: " ++ errMsg u))],
          []) := by
    simp [deliverMediaLoop, ht, hfail, joinNl, hfb]
  have hmain :
      deliverWebReply { text := some t, mediaUrl := some u } mediaFails errMsg =
        [OutboundSend.textSend (t ++ "\n" ++ ("⚠️ Media failed: " ++ errMsg u))] := by
    unfold deliverWebReply
    simp only [Option.getD_some]
    simp only [hchunk, hml]
    simp [hloop]
  refine ⟨hmain, ?_, ?_, ?_, ?_, ?_⟩
  · rw [hmain]; rfl
  · rw [hmain]; rfl
  · show charsContains t.toList (((t ++ "\n") ++ ("⚠️ Media failed: " ++ errMsg u)).toList) = true
    rw [strToList_append, strToList_append, List.append_assoc]
    exact charsContains_of_prefixB _ _ (charsPrefixOf_self_append _ _)
  · have hdec : "⚠️ Media failed: ".toList =
        "⚠️ ".toList ++ ("Media failed".toList ++ ": ".toList) := by decide
    show charsContains "Media failed".toList
        (((t ++ "\n") ++ ("⚠️ Media failed: " ++ errMsg u)).toList) = true
    rw [strToList_append, strToList_append, strToList_append, hdec]
    simp only [List.append_assoc]
    apply charsContains_append_left
    apply charsContains_append_left
    apply charsContains_append_left
    exact charsContains_of_prefixB _ _ (charsPrefixOf_self_append _ _)
  · intro hfail2
    have hml2 : mediaListOf { text := some t, mediaUrls := some [u, u2] } =
        [u, u2] := by
      simp [mediaListOf]
    have hloop2 :
        deliverMediaLoop mediaFails errMsg [u, u2] true [t] =
          ([OutboundSend.textSend (t ++ "\n" ++ ("⚠️ Media failed: " ++ errMsg u))],
            []) := by
      simp [deliverMediaLoop, ht, hfail, hfail2, joinNl, hfb]
    unfold deliverWebReply
    simp only [Option.getD_some]
    simp only [hchunk, hml2]
    simp [hloop2]

/-- C3 witness: caption `"hi"`, one media URL whose send rejects with
message `"boom"`: one text-only fallback send. -/
theorem media_fallback_single_chunk_witness :
    deliverWebReply { text := some "hi", mediaUrl := some "u" } (fun _ => true)
        (fun _ => "boom") =
      [OutboundSend.textSend ("hi" ++ "\n" ++ ("⚠️ Media failed: " ++ "boom"))] :=
  (media_fallback_single_chunk "hi" "u" "u" (fun _ => true) (fun _ => "boom")
      (by decide) (by decide) (by decide) rfl).1

/-- C3 counterexample: for a caption of 4001 characters (two chunks) and one
failing media URL, the single fallback send contains only the second chunk
plus the failure note — the original caption text is NOT contained in any
outbound send, because the catch block re-shifts the chunk queue
(`remainingText.shift() ?? caption`, `src/web/auto-reply.ts:675-678`)
instead of reusing the consumed caption chunk. -/
theorem media_fallback_multichunk_counterexample :
    deliverWebReply bigCaptionPayload (fun _ => true) (fun _ => "boom") =
        [OutboundSend.textSend ("b" ++ "\n" ++ ("⚠️ Media failed: " ++ "boom"))] ∧
    countMediaSends
        (deliverWebReply bigCaptionPayload (fun _ => true) (fun _ => "boom")) = 0 ∧
    countTextSends
        (deliverWebReply bigCaptionPayload (fun _ => true) (fun _ => "boom")) = 1 ∧
    strContainsB ("b" ++ "\n" ++ ("⚠️ Media failed: " ++ "boom"))
        (bigCaptionPayload.text.getD "") = false := by
  have hA : ¬(String.mk (List.replicate 4000 'a') = "") :=
    mkStr_ne_empty _ (by simp [-List.reduceReplicate])
  have hml : mediaListOf bigCaptionPayload = ["https://example.com/img.png"] := by
    simp [mediaListOf, bigCaptionPayload, -List.reduceReplicate]
  have hloop :
      deliverMediaLoop (fun _ => true) (fun _ => "boom")
          ["https://example.com/img.png"] true
          [String.mk (List.replicate 4000 'a'), "b"] =
        ([OutboundSend.textSend ("b" ++ "\n" ++ ("⚠️ Media failed: " ++ "boom"))],
          []) := by
    simp [deliverMediaLoop, hA, joinNl, -List.reduceReplicate]
  have hmain :
      deliverWebReply bigCaptionPayload (fun _ => true) (fun _ => "boom") =
        [OutboundSend.textSend ("b" ++ "\n" ++ ("⚠️ Media failed: " ++ "boom"))] := by
    unfold deliverWebReply
    rw [show bigCaptionPayload.text = some (String.mk (List.replicate 4000 'a' ++ ['b']))
      from rfl]
    simp only [Option.getD_some]
    simp only [bigCaption_chunks, hml]
    simp [hloop, -List.reduceReplicate]
  refine ⟨hmain, ?_, ?_, ?_⟩
  · rw [hmain]; rfl
  · rw [hmain]; rfl
  · have hlenA : (bigCaptionPayload.text.getD "").toList.length = 4001 := by
      rw [show (bigCaptionPayload.text.getD "").toList =
        List.replicate 4000 'a' ++ ['b'] from rfl]
      simp [-List.reduceReplicate]
    have hlenFb :
        (("b" ++ "\n" ++ ("⚠️ Media failed: " ++ "boom")) : String).toList.length ≤
          100 := by decide
    cases h : strContainsB ("b" ++ "\n" ++ ("⚠️ Media failed: " ++ "boom"))
        (bigCaptionPayload.text.getD "") with
    | false => rfl
    | true =>
      exfalso
      have hle := charsContains_length _ _ h
      rw [hlenA] at hle
      omega

end OpenClaw
